import Mathlib

/-!
Verification of the browserbase-lambda-playwright job lifecycle engine.

We give a shallow embedding of the three core pieces of the repository:

* the Job Executor `scrape_page` and its DynamoDB helper `update_job_status`
  (src/lambdas/scraper/scraper.py),
* the Status Query Service `lambda_handler` with its `DecimalEncoder`
  (src/lambdas/getter/getter.py),
* the Polling Client defined by `get_job_status` and the polling loop of
  `main` (src/examples/quick_start.py),

together with a small model of Python's module-load-time evaluation of
function signatures, used to analyse the scraper module's type hints.

External effects (Browserbase session creation, CDP connect, navigation,
title and content extraction, DynamoDB puts, browser close, playwright
stop, clocks and uuid generation) are supplied by an oracle environment
`Env`; the embedding computes, as pure data, the ordered trace of events
the Python code would perform under that oracle, the exception (if any)
escaping `scrape_page`, and its return value.
-/

deriving instance DecidableEq for Except

namespace BrowserbaseLambda

/-- Classification of a Python exception by which `except` clause of
`scrape_page` (scraper.py lines 177-185) would catch it:
`BrowserbaseError`, builtin `TimeoutError`, or any other `Exception`.
The payload is `str(e)`. -/
inductive PyErr where
  | browserbase (msg : String)
  | timeout (msg : String)
  | other (msg : String)
deriving DecidableEq

/-- The `error_info` string produced by the `except` clauses of
`scrape_page` (scraper.py lines 177-185). -/
def errorInfo : PyErr → String
  | .browserbase m => "Browserbase API error: " ++ m
  | .timeout m => "Playwright timeout error: " ++ m
  | .other m => "An unexpected error occurred: " ++ m

/-- Python truthiness of an optional string (`None` and `""` are falsy). -/
def truthyStr : Option String → Bool
  | none => false
  | some s => !(s == "")

/-- A Browserbase session handle: `session.id` and `session.connect_url`
(scraper.py lines 104-106, 137-138). -/
structure Session where
  id : String
  connect_url : String
deriving DecidableEq

/-- Oracle for the external collaborators of `create_browserbase_session`
(scraper.py lines 81-109): whether the two environment variables are set,
what `get_secret_value` returns for each ARN, and the outcome of
`bb.sessions.create` (error payload is the `BrowserbaseError` message). -/
structure SessionEnv where
  projectIdArnSet : Bool := true
  apiKeyArnSet : Bool := true
  apiKeySecret : Option String := some "key"
  projectIdSecret : Option String := some "project"
  createResult : Except String Session := .ok { id := "sess", connect_url := "wss://connect" }
deriving DecidableEq

/-- `create_browserbase_session` (scraper.py lines 81-109): raises
`ValueError` (an ordinary `Exception`, hence `PyErr.other`) when an
environment variable is missing or a credential could not be retrieved,
re-raises `BrowserbaseError` from `bb.sessions.create`, and otherwise
returns the session. -/
def create_browserbase_session (e : SessionEnv) : Except PyErr Session :=
  if !e.projectIdArnSet then
    .error (.other "BROWSERBASE_PROJECT_ID_ARN not set.")
  else if !e.apiKeyArnSet then
    .error (.other "BROWSERBASE_API_KEY_SECRET_ARN not set.")
  else if !(truthyStr e.apiKeySecret) || !(truthyStr e.projectIdSecret) then
    .error (.other "Failed to retrieve Browserbase credentials from Secrets Manager.")
  else
    match e.createResult with
    | .ok s => .ok s
    | .error m => .error (.browserbase m)

/-- The `result_data` dictionaries passed to `update_job_status`: the keys
that `initial_data` (scraper.py lines 120-123, 139) and `results`
(lines 170-173) can contribute. A `none` field is an absent key. -/
structure JobData where
  requestedUrl : Option String := none
  receivedAt : Option String := none
  sessionId : Option String := none
  pageTitle : Option String := none
  contentLength : Option Nat := none
deriving DecidableEq

/-- Python truthiness of the `result_data` dict (`if result_data:`,
scraper.py line 66): true iff some key is present. -/
def JobData.truthy (d : JobData) : Bool :=
  d.requestedUrl.isSome || d.receivedAt.isSome || d.sessionId.isSome ||
    d.pageTitle.isSome || d.contentLength.isSome

/-- The DynamoDB item assembled by `update_job_status` (scraper.py
lines 61-69). A `none` field is an absent attribute. -/
structure Item where
  jobId : String
  status : String
  lastUpdatedAt : String
  requestedUrl : Option String := none
  receivedAt : Option String := none
  sessionId : Option String := none
  pageTitle : Option String := none
  contentLength : Option Nat := none
  errorMessage : Option String := none
deriving DecidableEq

/-- The item built by `update_job_status` before the put (scraper.py
lines 61-69): base keys `jobId`, `status`, `lastUpdatedAt`; then
`item.update(result_data)` when `result_data` is truthy; then
`item['errorMessage'] = error_message` when `error_message` is truthy. -/
def updItem (timestamp job_id status : String) (result_data : Option JobData)
    (error_message : Option String) : Item :=
  let base : Item := { jobId := job_id, status := status, lastUpdatedAt := timestamp }
  let withData : Item :=
    match result_data with
    | some d =>
        if d.truthy then
          { base with requestedUrl := d.requestedUrl, receivedAt := d.receivedAt,
                      sessionId := d.sessionId, pageTitle := d.pageTitle,
                      contentLength := d.contentLength }
        else base
    | none => base
  if truthyStr error_message then { withData with errorMessage := error_message }
  else withData

/-- `update_job_status` (scraper.py lines 54-78). Returns the list of
`put_item` calls issued (empty when the table handle is falsy, line 56)
and the exception it lets escape. The `try` around `put_item` catches both
`ClientError` and `Exception` (lines 75-78), so a store failure
(`storeErr`) is swallowed: the second component is `none` in every case. -/
def update_job_status (tableConfigured : Bool) (timestamp job_id status : String)
    (result_data : Option JobData) (error_message : Option String)
    (storeErr : Option PyErr) : List Item × Option PyErr :=
  if !tableConfigured then ([], none)
  else
    match storeErr with
    | some _ => ([updItem timestamp job_id status result_data error_message], none)
    | none => ([updItem timestamp job_id status result_data error_message], none)

/-- The `payload` dict handed to `scrape_page`: optional `jobId` and `url`
keys (scraper.py lines 117-118). -/
structure Payload where
  jobId : Option String := none
  url : Option String := none
deriving DecidableEq

/-- Oracle environment for one `scrape_page` execution: truthiness of the
module-level `job_table` handle, the generated uuid, a clock for the
`datetime.now().isoformat()` strings, per-write DynamoDB outcomes, and the
outcome of every external call in program order. -/
structure Env where
  tableConfigured : Bool := true
  uuid4 : String := "11111111-1111-1111-1111-111111111111"
  clock : Nat → String := fun n => toString n
  storeErr : Nat → Option PyErr := fun _ => none
  sessionEnv : SessionEnv := {}
  startResult : Except PyErr Unit := .ok ()
  connectResult : Except PyErr Unit := .ok ()
  hasContexts : Bool := true
  hasPages : Bool := true
  newPageResult : Except PyErr Unit := .ok ()
  gotoResult : Except PyErr Unit := .ok ()
  titleResult : Except PyErr String := .ok "Hacker News"
  contentResult : Except PyErr Nat := .ok 12345
  connectedAtCleanup : Bool := true
  closeResult : Option PyErr := none
  stopResult : Option PyErr := none

/-- State of `scrape_page`'s local variables when control reaches the
`finally` block (scraper.py lines 126-185): `session_id`, whether
`playwright` and `browser` were assigned, the `results` dict, the caught
exception, and the `final_status` string. -/
structure BodyOut where
  sessionId : Option String
  playwrightStarted : Bool
  browserSet : Bool
  results : Option (String × Nat)
  caught : Option PyErr
  finalStatus : String
deriving DecidableEq

/-- Local state after an exception is caught: `results` stays `{}` and
`final_status` keeps its initial value `"failed"` (scraper.py line 130). -/
def failedOut (sid : Option String) (pw browser : Bool) (e : PyErr) : BodyOut :=
  { sessionId := sid, playwrightStarted := pw, browserSet := browser,
    results := none, caught := some e, finalStatus := "failed" }

/-- The `try` body of `scrape_page` (scraper.py lines 133-175) together
with its `except` clauses: session creation, `async_playwright().start()`,
`connect_over_cdp`, the context/page discovery (raising
`Exception("No browser contexts found.")` when `browser.contexts` is
empty, creating a page when `context.pages` is empty), navigation, title
and content extraction. On full success `results` is set and
`final_status` becomes `"SUCCESS"` (lines 170-174). -/
def tryBody (env : Env) : BodyOut :=
  match create_browserbase_session env.sessionEnv with
  | .error e => failedOut none false false e
  | .ok s =>
    match env.startResult with
    | .error e => failedOut (some s.id) false false e
    | .ok _ =>
      match env.connectResult with
      | .error e => failedOut (some s.id) true false e
      | .ok _ =>
        if !env.hasContexts then
          failedOut (some s.id) true true (.other "No browser contexts found.")
        else
          match (if env.hasPages then Except.ok () else env.newPageResult) with
          | .error e => failedOut (some s.id) true true e
          | .ok _ =>
            match env.gotoResult with
            | .error e => failedOut (some s.id) true true e
            | .ok _ =>
              match env.titleResult with
              | .error e => failedOut (some s.id) true true e
              | .ok t =>
                match env.contentResult with
                | .error e => failedOut (some s.id) true true e
                | .ok n =>
                  { sessionId := some s.id, playwrightStarted := true, browserSet := true,
                    results := some (t, n), caught := none, finalStatus := "SUCCESS" }

/-- One observable event of a `scrape_page` execution: a DynamoDB
`put_item`, a `browser.close()` call, or a `playwright.stop()` call. -/
inductive Ev where
  | put (item : Item)
  | closeBrowser
  | stopPlaywright
deriving DecidableEq

/-- Whether an event is a Status Store write. -/
def Ev.isPut : Ev → Bool
  | .put _ => true
  | _ => false

/-- The cleanup section of the `finally` block (scraper.py lines 192-198):
`browser.close()` runs only when `browser` is set and still
`is_connected()`; `playwright.stop()` runs when `playwright` is set. A
cleanup exception is not caught, so it aborts the rest of the cleanup and
escapes. Returns the cleanup events performed and the escaping
exception. -/
def cleanupTrace (env : Env) (out : BodyOut) : List Ev × Option PyErr :=
  if out.browserSet && env.connectedAtCleanup then
    match env.closeResult with
    | some e => ([.closeBrowser], some e)
    | none =>
      if out.playwrightStarted then
        match env.stopResult with
        | some e => ([.closeBrowser, .stopPlaywright], some e)
        | none => ([.closeBrowser, .stopPlaywright], none)
      else ([.closeBrowser], none)
  else
    if out.playwrightStarted then
      match env.stopResult with
      | some e => ([.stopPlaywright], some e)
      | none => ([.stopPlaywright], none)
    else ([], none)

/-- The whole observable outcome of one `scrape_page` execution: the
ordered event trace, the exception escaping `scrape_page` (if any), and
the returned `{jobId, finalStatus}` dict (absent when an exception
escapes). -/
structure Run where
  events : List Ev
  raised : Option PyErr
  ret : Option (String × String)
deriving DecidableEq

/-- `job_id = payload.get("jobId", str(uuid.uuid4()))` (scraper.py
line 117). -/
def jobIdOf (env : Env) (p : Payload) : String := p.jobId.getD env.uuid4

/-- `target_url = payload.get("url", "https://news.ycombinator.com/")`
(scraper.py line 118). -/
def urlOf (p : Payload) : String := p.url.getD "https://news.ycombinator.com/"

/-- `initial_data` as first assembled (scraper.py lines 120-123). -/
def initialData (env : Env) (p : Payload) : JobData :=
  { requestedUrl := some (urlOf p), receivedAt := some (env.clock 0) }

/-- `initial_data` after the `initial_data['sessionId'] = session_id`
mutation (scraper.py line 139), which happens iff the session was
created. -/
def initialDataWithSession (env : Env) (p : Payload) : JobData :=
  match (tryBody env).sessionId with
  | some sid => { initialData env p with sessionId := some sid }
  | none => initialData env p

/-- `final_data = initial_data.copy(); final_data.update(results)`
(scraper.py lines 188-189). -/
def finalData (env : Env) (p : Payload) : JobData :=
  match (tryBody env).results with
  | some r =>
      { initialDataWithSession env p with
          pageTitle := some r.1
          contentLength := some r.2 }
  | none => initialDataWithSession env p

/-- Status Store writes issued by the initial `PENDING` update
(scraper.py line 124). -/
def pendingWrites (env : Env) (p : Payload) : List Item :=
  (update_job_status env.tableConfigured (env.clock 1) (jobIdOf env p) "PENDING"
    (some (initialData env p)) none (env.storeErr 0)).1

/-- Status Store writes issued by the `RUNNING` update (scraper.py
line 141), reached iff session creation succeeded. -/
def runningWrites (env : Env) (p : Payload) : List Item :=
  match (tryBody env).sessionId with
  | some _ =>
      (update_job_status env.tableConfigured (env.clock 2) (jobIdOf env p) "RUNNING"
        (some (initialDataWithSession env p)) none (env.storeErr 1)).1
  | none => []

/-- Status Store writes issued by the terminal update in the `finally`
block (scraper.py line 190). -/
def terminalWrites (env : Env) (p : Payload) : List Item :=
  (update_job_status env.tableConfigured (env.clock 3) (jobIdOf env p)
    (tryBody env).finalStatus (some (finalData env p))
    ((tryBody env).caught.map errorInfo) (env.storeErr 2)).1

/-- `scrape_page` (scraper.py lines 112-202): the `PENDING` write, the
`try` body (with its `RUNNING` write), then the `finally` block — the
terminal write followed by cleanup — and the return value
`{'jobId': job_id, 'finalStatus': final_status}` when no cleanup
exception escapes. -/
def scrape_page (env : Env) (p : Payload) : Run :=
  let cu := cleanupTrace env (tryBody env)
  { events := (pendingWrites env p ++ runningWrites env p ++ terminalWrites env p).map Ev.put
              ++ cu.1,
    raised := cu.2,
    ret := match cu.2 with
           | some _ => none
           | none => some (jobIdOf env p, (tryBody env).finalStatus) }

/-- The item carried by a write event, if any. -/
def evItem : Ev → Option Item
  | .put it => some it
  | .closeBrowser => none
  | .stopPlaywright => none

/-- The Status Store writes of a run, in issue order. -/
def Run.writes (r : Run) : List Item :=
  r.events.filterMap evItem

/-- The statuses of the Status Store writes of a run, in issue order. -/
def Run.statusTrace (r : Run) : List String :=
  r.writes.map Item.status

/-- The number of `browser.close()` invocations in a run. -/
def Run.closeCount (r : Run) : Nat :=
  r.events.count Ev.closeBrowser

/-- The terminal status strings `scrape_page` can write: the literal
`"SUCCESS"` (scraper.py line 174) and the literal `"failed"`
(line 130). -/
def isTerminalWrite (s : String) : Bool := s == "SUCCESS" || s == "failed"

/-- Lifecycle phase of a written status, for the regression ordering:
`PENDING` before `RUNNING` before terminal. -/
def statusPhase (s : String) : Nat :=
  if s == "PENDING" then 0 else if s == "RUNNING" then 1 else 2

/-- Whether the Browserbase session was acquired in this environment. -/
def sessionAcquired (env : Env) : Bool :=
  (create_browserbase_session env.sessionEnv).toOption.isSome

/-! ## Status Query Service (src/lambdas/getter/getter.py) -/

/-- A decimal number as DynamoDB's Python SDK returns numeric attributes
(`decimal.Decimal`): value is `mant / 10 ^ scale`. -/
structure Dec where
  mant : Int
  scale : Nat
deriving DecidableEq

/-- The exact rational value of a stored decimal. -/
def Dec.toRat (d : Dec) : Rat := (d.mant : Rat) / ((10 : Rat) ^ d.scale)

/-- The `o % 1 == 0` test of `DecimalEncoder.default` (getter.py
line 18). -/
def Dec.isIntegral (d : Dec) : Bool := d.mant % ((10 : Int) ^ d.scale) == 0

/-- `int(o)` (getter.py line 19): truncation toward zero, exact on
integral decimals. -/
def Dec.toInt (d : Dec) : Int := d.mant.tdiv ((10 : Int) ^ d.scale)

/-- The decimal DynamoDB stores for a Python `int` value `n`. -/
def Dec.ofNat (n : Nat) : Dec := { mant := (n : Int), scale := 0 }

/-- A JSON numeric literal as `DecimalEncoder` emits it: a Python `int`
(arbitrary precision, exact) or a Python `float`. The value a `float`
denotes is supplied by the conversion oracle `toFloat`, since IEEE-754
rounding is outside this model. -/
inductive JNum where
  | jint (n : Int)
  | jfloat (q : Rat)
deriving DecidableEq

/-- `DecimalEncoder.default` (getter.py lines 16-22) on a decimal:
`int(o)` when `o % 1 == 0`, else `float(o)`. -/
def encodeDecimal (toFloat : Dec → Rat) (o : Dec) : JNum :=
  if o.isIntegral then .jint o.toInt else .jfloat (toFloat o)

/-- The numeric value a JSON reader recovers from the encoded literal. -/
def JNum.toRat : JNum → Rat
  | .jint n => (n : Rat)
  | .jfloat q => q

/-- A DynamoDB attribute value as deserialized by the getter: string or
number. -/
inductive AttrVal where
  | s (v : String)
  | n (d : Dec)
deriving DecidableEq

/-- A JSON scalar in a response body. -/
inductive JVal where
  | str (s : String)
  | num (n : JNum)
deriving DecidableEq

/-- `json.dumps(item, cls=DecimalEncoder)` (getter.py line 37) on a flat
DynamoDB item. -/
def dumpsItem (toFloat : Dec → Rat) (item : List (String × AttrVal)) :
    List (String × JVal) :=
  item.map fun kv =>
    (kv.1,
      match kv.2 with
      | .s v => .str v
      | .n d => .num (encodeDecimal toFloat d))

/-- Result of the `get_item` call plus the exception behaviour inside the
getter's `try` (getter.py lines 25-60): a record was found (`'Item' in
response`), no record exists, the store raised `ClientError`, or some
other exception occurred. -/
inductive GetOutcome where
  | found (item : List (String × AttrVal))
  | missing
  | clientError (msg : String)
  | unexpected (msg : String)
deriving DecidableEq

/-- An API Gateway response dict as built by the getter. -/
structure HttpResponse where
  statusCode : Nat
  contentTypeJson : Bool
  body : List (String × JVal)
deriving DecidableEq

/-- The getter `lambda_handler` (getter.py lines 24-60). -/
def getter_lambda_handler (toFloat : Dec → Rat) (o : GetOutcome) : HttpResponse :=
  match o with
  | .found item =>
      { statusCode := 200, contentTypeJson := true, body := dumpsItem toFloat item }
  | .missing =>
      { statusCode := 404, contentTypeJson := true,
        body := [("error", .str "Job not found")] }
  | .clientError _ =>
      { statusCode := 500, contentTypeJson := true,
        body := [("error", .str "Failed to retrieve job status due to database error")] }
  | .unexpected _ =>
      { statusCode := 500, contentTypeJson := true,
        body := [("error", .str "An internal server error occurred")] }

/-- The numeric attribute values of an Executor-written item, as DynamoDB
stores them: `contentLength` (a Python `int`) is the only numeric field
`scrape_page` ever writes. -/
def Item.numericAttrs (it : Item) : List Dec :=
  (it.contentLength.map Dec.ofNat).toList

/-! ## Polling Client (src/examples/quick_start.py) -/

/-- `POLL_INTERVAL_SECONDS` (quick_start.py line 20). -/
def POLL_INTERVAL_SECONDS : Nat := 2

/-- `MAX_POLL_ATTEMPTS` (quick_start.py line 21). -/
def MAX_POLL_ATTEMPTS : Nat := 50

/-- A parsed status-response body as the polling loop consumes it: the
`status` key (absent makes `result.get('status', 'UNKNOWN')` yield
`"UNKNOWN"`) and the `error` key. -/
structure PollRecord where
  status : Option String := none
  error : Option String := none
deriving DecidableEq

/-- `result.get('status', 'UNKNOWN')` (quick_start.py line 119). -/
def PollRecord.statusOrUnknown (r : PollRecord) : String := r.status.getD "UNKNOWN"

/-- Outcome of one HTTP status query as `get_job_status` observes it
(quick_start.py lines 63-86). -/
inductive HttpResult where
  | ok (rec : PollRecord)
  | httpError (code : Nat) (msg : String)
  | timeout
  | netError (msg : String)
  | badJson (msg : String)
deriving DecidableEq

/-- `get_job_status` (quick_start.py lines 54-86): 200 returns the body;
an `HTTPError` with code 404 returns `None` (keep polling); any other
`HTTPError`, a network error, or a JSON decode error returns an
`ERROR_CHECKING` pseudo-record; a request timeout returns `None`. -/
def get_job_status (r : HttpResult) : Option PollRecord :=
  match r with
  | .ok rec => some rec
  | .httpError code msg =>
      if code == 404 then none
      else some { status := some "ERROR_CHECKING", error := some msg }
  | .timeout => none
  | .netError msg => some { status := some "ERROR_CHECKING", error := some msg }
  | .badJson msg =>
      some { status := some "ERROR_CHECKING",
             error := some ("Invalid JSON response: " ++ msg) }

/-- The early-stop test of the loop (quick_start.py line 121):
`status in ["SUCCESS", "FAILED", "ERROR_CHECKING"]`. -/
def isPollStop (s : String) : Bool :=
  s == "SUCCESS" || s == "FAILED" || s == "ERROR_CHECKING"

/-- What the polling phase of `main` reports: a final result captured by
the early break, or falling out of the loop with the budget exhausted
(quick_start.py lines 128-141, the distinct "did not reach a final state
within the polling time limit" report). -/
inductive PollOutcome where
  | finalResult (r : PollRecord) (attempts : Nat)
  | budgetExhausted (attempts : Nat)
deriving DecidableEq

/-- Number of queries the loop made. -/
def PollOutcome.attempts : PollOutcome → Nat
  | .finalResult _ a => a
  | .budgetExhausted a => a

/-- The `while attempts < MAX_POLL_ATTEMPTS` loop (quick_start.py
lines 110-125): `attempts` queries made so far, `fuel` the remaining
budget; each iteration increments `attempts`, queries, and breaks on a
truthy result whose status is in the stop list. -/
def pollLoop (resp : Nat → Option PollRecord) : Nat → Nat → PollOutcome
  | attempts, 0 => .budgetExhausted attempts
  | attempts, fuel + 1 =>
      match resp (attempts + 1) with
      | some r =>
          if isPollStop r.statusOrUnknown then .finalResult r (attempts + 1)
          else pollLoop resp (attempts + 1) fuel
      | none => pollLoop resp (attempts + 1) fuel

/-- The whole polling phase of `main`, driven by an oracle giving the HTTP
outcome of each attempt (1-indexed). -/
def runPolling (http : Nat → HttpResult) : PollOutcome :=
  pollLoop (fun i => get_job_status (http i)) 0 MAX_POLL_ATTEMPTS

/-- Whether attempt `i` stops the loop, and with which record. -/
def stopsAt (resp : Nat → Option PollRecord) (i : Nat) : Option PollRecord :=
  match resp i with
  | some r => if isPollStop r.statusOrUnknown then some r else none
  | none => none

/-! ## Module-load evaluation of the scraper's type hints
(src/lambdas/scraper/scraper.py lines 11 and 54) -/

/-- `Except.isOk` as a plain boolean. -/
def exceptOk {e a : Type} : Except e a → Bool
  | .ok _ => true
  | .error _ => false

/-- The names line 11 of scraper.py imports from `typing`:
`from typing import Optional`. -/
def scraperTypingImports : List String := ["Optional"]

/-- The global names available to annotation expressions of the scraper
module: the builtin `str` plus the `typing` imports. (`Dict` and `Any`
are absent: they are never imported.) -/
def scraperAnnotationScope : List String := "str" :: scraperTypingImports

/-- The names referenced, in left-to-right evaluation order, by the
parameter annotations of `update_job_status` (scraper.py line 54):
`job_id: str`, `status: str`, `result_data: Optional[Dict[str, Any]]`
(whose subscript evaluates `Optional`, then `Dict`, then `str`, then
`Any`), `error_message: Optional[str]`. -/
def updateJobStatusAnnotationRefs : List String :=
  ["str", "str", "Optional", "Dict", "str", "Any", "Optional", "str"]

/-- The names referenced by the annotations of `get_secret_value`
(scraper.py line 29): `secret_arn: str`, `expected_key: str`,
return `Optional[str]`. -/
def getSecretValueAnnotationRefs : List String :=
  ["str", "str", "Optional", "str"]

/-- CPython evaluates `def` annotations at module load time (there is no
`from future import annotations` in scraper.py): the first name
not in scope raises `NameError` and aborts the import. -/
def evalAnnotations (scope refs : List String) : Except String Unit :=
  match refs with
  | [] => .ok ()
  | r :: rest =>
      if scope.contains r then evalAnnotations scope rest
      else .error ("NameError: name " ++ r ++ " is not defined")

/-- Loading the scraper module, restricted to its annotation evaluation:
the `def get_secret_value` header (line 29) is evaluated first, then the
`def update_job_status` header (line 54). -/
def loadScraperModule : Except String Unit :=
  match evalAnnotations scraperAnnotationScope getSecretValueAnnotationRefs with
  | .error e => .error e
  | .ok _ => evalAnnotations scraperAnnotationScope updateJobStatusAnnotationRefs

/-! ## Concrete environments used as failing inputs and witnesses -/

/-- Environment where `bb.sessions.create` raises `BrowserbaseError`
("quota exceeded") and everything else is healthy. -/
def envSessionFail : Env :=
  { sessionEnv := { createResult := .error "quota exceeded" } }

/-- Environment where the session is created but `connect_over_cdp` times
out, so the `browser` variable is never assigned. -/
def envConnectFail : Env :=
  { connectResult := .error (.timeout "Timeout 60000ms exceeded") }

/-- Environment where the whole automation succeeds but `browser.close()`
raises during cleanup. -/
def envCloseFail : Env :=
  { closeResult := some (.other "connection closed while reading from the driver") }

/-- A fully healthy environment. -/
def envOk : Env := {}

/-- A payload with explicit `jobId` and `url`. -/
def payloadX : Payload := { jobId := some "job-1", url := some "https://example.com/" }

/-- HTTP oracle whose first status query already reports `SUCCESS`. -/
def pollHttpSuccess : Nat → HttpResult :=
  fun _ => .ok { status := some "SUCCESS" }

/-- The terminal record a healthy run on `envOk` with `payloadX` writes
(used as a concrete witness item). -/
def itemW : Item :=
  { jobId := "job-1", status := "SUCCESS", lastUpdatedAt := "3",
    requestedUrl := some "https://example.com/", receivedAt := some "0",
    sessionId := some "sess", pageTitle := some "Hacker News",
    contentLength := some 12345, errorMessage := none }

/-! ## Helper lemmas -/

/-- The `error_info` strings are never empty, hence always truthy. -/
theorem errorInfo_ne_empty (e : PyErr) : errorInfo e ≠ "" := by
  cases e <;> intro h <;>
    have h2 := congrArg String.length h <;>
    simp [errorInfo, String.length_append] at h2 <;>
    exact absurd h2.1 (by decide)

/-- Truthiness of a present nonempty string. -/
theorem truthyStr_some (s : String) (h : s ≠ "") : truthyStr (some s) = true := by
  simp [truthyStr, h]

/-- Case analysis of the `try` body: either an exception was caught (then
`results` is empty and `final_status` stayed `"failed"`) or none was (then
`results` is populated and `final_status` is `"SUCCESS"`); the session id
is recorded iff session creation succeeded; the `browser` variable implies
the `playwright` variable. -/
theorem tryBody_spec (env : Env) :
    ((tryBody env).caught.isSome = true ∧ (tryBody env).finalStatus = "failed" ∧
        (tryBody env).results = none ∨
      (tryBody env).caught = none ∧ (tryBody env).finalStatus = "SUCCESS" ∧
        (tryBody env).results.isSome = true) ∧
    (tryBody env).sessionId.isSome = sessionAcquired env ∧
    ((tryBody env).browserSet = true → (tryBody env).playwrightStarted = true) := by
  unfold tryBody sessionAcquired
  rcases create_browserbase_session env.sessionEnv with e | s <;>
    rcases env.startResult with e2 | u2 <;>
    rcases env.connectResult with e3 | u3 <;>
    rcases env.hasContexts with _ | _ <;>
    rcases env.hasPages with _ | _ <;>
    rcases env.newPageResult with e4 | u4 <;>
    rcases env.gotoResult with e5 | u5 <;>
    rcases env.titleResult with e6 | t <;>
    rcases env.contentResult with e7 | n <;>
    simp [failedOut, Except.toOption]

/-- With a configured table, `update_job_status` issues exactly the one
assembled item, whatever the put outcome. -/
theorem update_job_status_fst (ts j s : String) (rd : Option JobData)
    (em : Option String) (se : Option PyErr) :
    (update_job_status true ts j s rd em se).1 = [updItem ts j s rd em] := by
  unfold update_job_status
  cases se <;> rfl

/-- `update_job_status` never lets an exception escape (scraper.py
lines 71-78 catch `ClientError` and `Exception`). -/
theorem update_job_status_snd (tc : Bool) (ts j s : String) (rd : Option JobData)
    (em : Option String) (se : Option PyErr) :
    (update_job_status tc ts j s rd em se).2 = none := by
  unfold update_job_status
  cases tc <;> cases se <;> rfl

/-- The item assembled from a truthy `result_data` dict. -/
theorem updItem_some_truthy (ts j s : String) (d : JobData) (em : Option String)
    (hd : d.truthy = true) :
    updItem ts j s (some d) em =
      { jobId := j, status := s, lastUpdatedAt := ts, requestedUrl := d.requestedUrl,
        receivedAt := d.receivedAt, sessionId := d.sessionId, pageTitle := d.pageTitle,
        contentLength := d.contentLength,
        errorMessage := if truthyStr em then em else none } := by
  unfold updItem
  simp only [hd, if_true]
  split <;> simp_all

/-- Every `result_data` dict `scrape_page` passes carries `requestedUrl`,
so it is truthy. -/
theorem initialData_truthy (env : Env) (p : Payload) :
    (initialData env p).truthy = true := rfl

/-- `initial_data` stays truthy after the `sessionId` mutation. -/
theorem initialDataWithSession_truthy (env : Env) (p : Payload) :
    (initialDataWithSession env p).truthy = true := by
  unfold initialDataWithSession
  cases h : (tryBody env).sessionId <;> rfl

/-- `final_data` is truthy. -/
theorem finalData_truthy (env : Env) (p : Payload) :
    (finalData env p).truthy = true := by
  unfold finalData
  cases h : (tryBody env).results
  · exact initialDataWithSession_truthy env p
  · simp [JobData.truthy]

/-- `final_data` carries the session id recorded by the body. -/
theorem finalData_sessionId (env : Env) (p : Payload) :
    (finalData env p).sessionId = (tryBody env).sessionId := by
  unfold finalData initialDataWithSession
  cases hr : (tryBody env).results <;> cases hs : (tryBody env).sessionId <;>
    simp [initialData]

/-- `final_data` carries the extracted payload exactly when the body
computed one. -/
theorem finalData_results (env : Env) (p : Payload) :
    (finalData env p).pageTitle = ((tryBody env).results.map Prod.fst) ∧
    (finalData env p).contentLength = ((tryBody env).results.map Prod.snd) := by
  unfold finalData initialDataWithSession
  cases hr : (tryBody env).results <;> cases hs : (tryBody env).sessionId <;>
    simp [initialData]

/-- Cleanup performs no Status Store writes. -/
theorem cleanupTrace_no_put (env : Env) (out : BodyOut) :
    ∀ e ∈ (cleanupTrace env out).1, e.isPut = false := by
  unfold cleanupTrace
  repeat' split
  all_goals intro e he
  all_goals fin_cases he <;> rfl

/-- The writes of a run are the three update sections, in order. -/
theorem scrape_page_writes (env : Env) (p : Payload) :
    (scrape_page env p).writes =
      pendingWrites env p ++ runningWrites env p ++ terminalWrites env p := by
  unfold scrape_page Run.writes
  rw [List.filterMap_append]
  have h1 : ∀ ws : List Item, (ws.map Ev.put).filterMap evItem = ws := by
    intro ws
    rw [List.filterMap_map]
    have hco : evItem ∘ Ev.put = some := by
      funext it
      rfl
    rw [hco, List.filterMap_some]
  have h2 : (cleanupTrace env (tryBody env)).1.filterMap evItem = [] := by
    rw [List.filterMap_eq_nil_iff]
    intro e he
    have h3 := cleanupTrace_no_put env (tryBody env) e he
    cases e <;> simp_all [Ev.isPut, evItem]
  rw [h1, h2, List.append_nil]

/-- The status key of an assembled item is the status argument. -/
theorem updItem_status (ts j s : String) (rd : Option JobData) (em : Option String) :
    (updItem ts j s rd em).status = s := by
  unfold updItem
  dsimp only
  repeat' split
  all_goals rfl

/-- The session id recorded after the `initial_data['sessionId']`
mutation is the one the body acquired. -/
theorem initialDataWithSession_sessionId (env : Env) (p : Payload) :
    (initialDataWithSession env p).sessionId = (tryBody env).sessionId := by
  unfold initialDataWithSession
  cases hs : (tryBody env).sessionId <;> simp [initialData]

/-- Explicit form of the write list with a configured table. -/
theorem writes_spec (env : Env) (p : Payload) (h : env.tableConfigured = true) :
    (scrape_page env p).writes =
      updItem (env.clock 1) (jobIdOf env p) "PENDING" (some (initialData env p)) none ::
        ((match (tryBody env).sessionId with
          | some _ => [updItem (env.clock 2) (jobIdOf env p) "RUNNING"
              (some (initialDataWithSession env p)) none]
          | none => []) ++
          [updItem (env.clock 3) (jobIdOf env p) (tryBody env).finalStatus
            (some (finalData env p)) ((tryBody env).caught.map errorInfo)]) := by
  rw [scrape_page_writes]
  unfold pendingWrites runningWrites terminalWrites
  rw [h]
  cases hs : (tryBody env).sessionId <;> simp [update_job_status_fst]

/-- Explicit form of the status trace with a configured table. -/
theorem statusTrace_spec (env : Env) (p : Payload) (h : env.tableConfigured = true) :
    (scrape_page env p).statusTrace =
      "PENDING" :: ((if sessionAcquired env = true then ["RUNNING"] else []) ++
        [(tryBody env).finalStatus]) := by
  have hsess := (tryBody_spec env).2.1
  unfold Run.statusTrace
  rw [writes_spec env p h]
  cases hs : (tryBody env).sessionId with
  | none =>
      rw [hs] at hsess
      simp only [Option.isSome_none] at hsess
      rw [← hsess]
      simp [updItem_status]
  | some sid =>
      rw [hs] at hsess
      simp only [Option.isSome_some] at hsess
      rw [← hsess]
      simp [updItem_status]

/-- Exactly one terminal status appears in the trace. -/
theorem terminal_count (env : Env) (p : Payload) (h : env.tableConfigured = true) :
    (scrape_page env p).statusTrace.countP (fun s => isTerminalWrite s) = 1 := by
  rw [statusTrace_spec env p h]
  rcases (tryBody_spec env).1 with ⟨_, hfs, _⟩ | ⟨_, hfs, _⟩ <;> rw [hfs] <;>
    cases hacq : sessionAcquired env <;> decide

/-- Exactly one terminal write appears among the writes. -/
theorem terminal_count_writes (env : Env) (p : Payload)
    (h : env.tableConfigured = true) :
    (scrape_page env p).writes.countP (fun it => isTerminalWrite it.status) = 1 := by
  have hh := terminal_count env p h
  unfold Run.statusTrace at hh
  rw [List.countP_map] at hh
  exact hh

/-- The event trace is the writes (as put events) followed by the cleanup
events. -/
theorem events_decomp (env : Env) (p : Payload) :
    (scrape_page env p).events =
      (scrape_page env p).writes.map Ev.put ++ (cleanupTrace env (tryBody env)).1 := by
  rw [scrape_page_writes]
  rfl

/-- Claim C2: for every job execution, the Status Store writes issued by
`scrape_page` are exactly `PENDING` first, then optionally `RUNNING`
(present precisely when session acquisition succeeded, and carrying a
session id), then exactly one terminal write; the observed phase never
regresses. (The terminal literals the code writes are `"SUCCESS"` and
`"failed"`; the casing of the latter is claim C1's concern.) -/
theorem claim_C2_write_order (env : Env) (p : Payload)
    (h : env.tableConfigured = true) :
    ((scrape_page env p).statusTrace = ["PENDING", "SUCCESS"] ∨
      (scrape_page env p).statusTrace = ["PENDING", "failed"] ∨
      (scrape_page env p).statusTrace = ["PENDING", "RUNNING", "SUCCESS"] ∨
      (scrape_page env p).statusTrace = ["PENDING", "RUNNING", "failed"]) ∧
    (scrape_page env p).statusTrace.countP (fun s => isTerminalWrite s) = 1 ∧
    (scrape_page env p).statusTrace.head? = some "PENDING" ∧
    ("RUNNING" ∈ (scrape_page env p).statusTrace ↔ sessionAcquired env = true) ∧
    (∀ it ∈ (scrape_page env p).writes, it.status = "RUNNING" →
        it.sessionId.isSome = true) ∧
    (scrape_page env p).statusTrace.Chain' (fun a b => statusPhase a ≤ statusPhase b) := by
  have hst := statusTrace_spec env p h
  have hware : ∀ it ∈ (scrape_page env p).writes, it.status = "RUNNING" →
      it.sessionId.isSome = true := by
    intro it hit hR
    rw [writes_spec env p h] at hit
    cases hs : (tryBody env).sessionId with
    | none =>
        rw [hs] at hit
        simp at hit
        rcases hit with h1 | h1 <;> subst h1 <;> rw [updItem_status] at hR
        · exact absurd hR (by decide)
        · rcases (tryBody_spec env).1 with ⟨_, hfs, _⟩ | ⟨_, hfs, _⟩ <;>
            rw [hfs] at hR <;> exact absurd hR (by decide)
    | some sid =>
        rw [hs] at hit
        simp at hit
        rcases hit with h1 | h1 | h1 <;> subst h1 <;> rw [updItem_status] at hR
        · exact absurd hR (by decide)
        · rw [updItem_some_truthy _ _ _ _ _ (initialDataWithSession_truthy env p)]
          simp only [initialDataWithSession_sessionId, hs, Option.isSome_some]
        · rcases (tryBody_spec env).1 with ⟨_, hfs, _⟩ | ⟨_, hfs, _⟩ <;>
            rw [hfs] at hR <;> exact absurd hR (by decide)
  refine ⟨?_, terminal_count env p h, ?_, ?_, hware, ?_⟩
  · rcases (tryBody_spec env).1 with ⟨_, hfs, _⟩ | ⟨_, hfs, _⟩ <;>
      rw [hfs] at hst <;> rw [hst] <;>
      cases hacq : sessionAcquired env <;> decide
  · rw [hst]
    rfl
  · rcases (tryBody_spec env).1 with ⟨_, hfs, _⟩ | ⟨_, hfs, _⟩ <;>
      rw [hfs] at hst <;> rw [hst] <;>
      cases hacq : sessionAcquired env <;> decide
  · rcases (tryBody_spec env).1 with ⟨_, hfs, _⟩ | ⟨_, hfs, _⟩ <;>
      rw [hfs] at hst <;> rw [hst] <;>
      cases hacq : sessionAcquired env <;>
      simp [List.chain'_cons, statusPhase]

/-- Witness for C2: on a healthy oracle the trace is
`PENDING, RUNNING, SUCCESS` with one terminal write. -/
theorem claim_C2_witness :
    envOk.tableConfigured = true ∧
    (scrape_page envOk payloadX).statusTrace.head? = some "PENDING" ∧
    (scrape_page envOk payloadX).statusTrace.countP (fun s => isTerminalWrite s) = 1 :=
  ⟨rfl, (claim_C2_write_order envOk payloadX rfl).2.2.1,
    (claim_C2_write_order envOk payloadX rfl).2.1⟩

/-- Claim C3: on every exit path the terminal record — carrying the
session id if acquired, the result payload if computed, the error message
if failed — is written exactly once, as the last Status Store write, and
every Status Store write precedes every cleanup action in the event
trace. -/
theorem claim_C3_terminal_before_cleanup (env : Env) (p : Payload)
    (h : env.tableConfigured = true) :
    (scrape_page env p).writes.countP (fun it => isTerminalWrite it.status) = 1 ∧
    (∃ t : Item,
      (scrape_page env p).writes.getLast? = some t ∧
      isTerminalWrite t.status = true ∧
      t.sessionId = (tryBody env).sessionId ∧
      ((tryBody env).caught = none →
        t.pageTitle.isSome = true ∧ t.contentLength.isSome = true ∧
          t.errorMessage = none) ∧
      (∀ e, (tryBody env).caught = some e →
        t.errorMessage = some (errorInfo e) ∧ t.pageTitle = none ∧
          t.contentLength = none)) ∧
    (scrape_page env p).events =
      (scrape_page env p).events.filter Ev.isPut ++
        (scrape_page env p).events.filter (fun e => !(e.isPut)) := by
  refine ⟨terminal_count_writes env p h, ?_, ?_⟩
  · refine ⟨updItem (env.clock 3) (jobIdOf env p) (tryBody env).finalStatus
      (some (finalData env p)) ((tryBody env).caught.map errorInfo),
      ?_, ?_, ?_, ?_, ?_⟩
    · rw [writes_spec env p h, ← List.cons_append, List.getLast?_concat]
    · rw [updItem_status]
      rcases (tryBody_spec env).1 with ⟨_, hfs, _⟩ | ⟨_, hfs, _⟩ <;>
        rw [hfs] <;> decide
    · rw [updItem_some_truthy _ _ _ _ _ (finalData_truthy env p)]
      exact finalData_sessionId env p
    · intro hc
      rw [updItem_some_truthy _ _ _ _ _ (finalData_truthy env p)]
      rcases (tryBody_spec env).1 with ⟨hcs, _, _⟩ | ⟨_, _, hres⟩
      · rw [hc] at hcs
        exact absurd hcs (by decide)
      · rcases hr : (tryBody env).results with _ | r
        · rw [hr] at hres
          exact absurd hres (by decide)
        · have hft := finalData_results env p
          rw [hr] at hft
          refine ⟨?_, ?_, ?_⟩
          · show (finalData env p).pageTitle.isSome = true
            rw [hft.1]
            rfl
          · show (finalData env p).contentLength.isSome = true
            rw [hft.2]
            rfl
          · show (if truthyStr ((tryBody env).caught.map errorInfo) then
                (tryBody env).caught.map errorInfo else none) = none
            rw [hc]
            rfl
    · intro e he
      rw [updItem_some_truthy _ _ _ _ _ (finalData_truthy env p)]
      rcases (tryBody_spec env).1 with ⟨_, _, hres⟩ | ⟨hcs, _, _⟩
      · have hft := finalData_results env p
        rw [hres] at hft
        refine ⟨?_, ?_, ?_⟩
        · show (if truthyStr ((tryBody env).caught.map errorInfo) then
              (tryBody env).caught.map errorInfo else none) = some (errorInfo e)
          rw [he]
          show (if truthyStr (some (errorInfo e)) then some (errorInfo e) else none) =
            some (errorInfo e)
          rw [truthyStr_some _ (errorInfo_ne_empty e)]
          rfl
        · show (finalData env p).pageTitle = none
          rw [hft.1]
          rfl
        · show (finalData env p).contentLength = none
          rw [hft.2]
          rfl
      · rw [he] at hcs
        exact absurd hcs (by simp)
  · rw [events_decomp env p, List.filter_append, List.filter_append]
    have hA : ((scrape_page env p).writes.map Ev.put).filter Ev.isPut =
        (scrape_page env p).writes.map Ev.put := by
      rw [List.filter_eq_self]
      intro e he
      rcases List.mem_map.mp he with ⟨it, _, rfl⟩
      rfl
    have hB : (cleanupTrace env (tryBody env)).1.filter Ev.isPut = [] := by
      rw [List.filter_eq_nil_iff]
      intro e he
      simp [cleanupTrace_no_put env (tryBody env) e he]
    have hC : ((scrape_page env p).writes.map Ev.put).filter (fun e => !(e.isPut)) =
        [] := by
      rw [List.filter_eq_nil_iff]
      intro e he
      rcases List.mem_map.mp he with ⟨it, _, rfl⟩
      simp [Ev.isPut]
    have hD : (cleanupTrace env (tryBody env)).1.filter (fun e => !(e.isPut)) =
        (cleanupTrace env (tryBody env)).1 := by
      rw [List.filter_eq_self]
      intro e he
      simp [cleanupTrace_no_put env (tryBody env) e he]
    rw [hA, hB, hC, hD, List.append_nil, List.nil_append]

/-- Witness for C3: on a healthy oracle the last write is the terminal
`SUCCESS` record. -/
theorem claim_C3_witness :
    envOk.tableConfigured = true ∧
    (scrape_page envOk payloadX).writes.countP
      (fun it => isTerminalWrite it.status) = 1 :=
  ⟨rfl, (claim_C3_terminal_before_cleanup envOk payloadX rfl).1⟩

/-- Claim C4 counterexample: with a healthy session creation but a failing
CDP connect, the session is acquired (its id even reaches the terminal
record) yet `browser.close()` is invoked zero times — cleanup runs zero
times for an acquired session. -/
theorem claim_C4_counterexample :
    sessionAcquired envConnectFail = true ∧
    ((scrape_page envConnectFail payloadX).writes.map Item.sessionId).getLast? =
      some (some "sess") ∧
    (scrape_page envConnectFail payloadX).closeCount = 0 := by
  refine ⟨by decide, by decide, by decide⟩

/-- Claim C4 as amended: `browser.close()` is invoked exactly once on
precisely those executions in which the automation connection was
established (`browser` assigned) and still reports connected at cleanup
time, and zero times otherwise — in particular zero times when the
session was acquired but the connection never came up or had dropped. -/
theorem claim_C4_amended (env : Env) (p : Payload) :
    (scrape_page env p).closeCount =
      if ((tryBody env).browserSet && env.connectedAtCleanup) = true then 1 else 0 := by
  unfold Run.closeCount
  rw [events_decomp env p, List.count_append]
  have h1 : ((scrape_page env p).writes.map Ev.put).count Ev.closeBrowser = 0 := by
    rw [List.count_eq_zero]
    intro hmem
    rcases List.mem_map.mp hmem with ⟨it, _, hput⟩
    exact absurd hput (by simp)
  rw [h1, Nat.zero_add]
  unfold cleanupTrace
  by_cases hb : ((tryBody env).browserSet && env.connectedAtCleanup) = true
  · rw [if_pos hb, if_pos hb]
    cases env.closeResult
    · by_cases hp : (tryBody env).playwrightStarted = true
      · rw [if_pos hp]
        cases env.stopResult <;> rfl
      · rw [if_neg hp]
        rfl
    · rfl
  · rw [if_neg hb, if_neg hb]
    by_cases hp : (tryBody env).playwrightStarted = true
    · rw [if_pos hp]
      cases env.stopResult <;> rfl
    · rw [if_neg hp]
      rfl

/-- Claim C1 (code bug evaluation): when session creation fails with a
`BrowserbaseError`, the terminal record is written with the literal
status `"failed"` — not the `"FAILED"` the design (and the repository's
own polling client stop list) prescribes — while the error message does
describe the provider-error category. -/
theorem claim_C1_failed_literal :
    (scrape_page envSessionFail payloadX).statusTrace = ["PENDING", "failed"] ∧
    ((scrape_page envSessionFail payloadX).writes.map Item.errorMessage).getLast? =
      some (some "Browserbase API error: quota exceeded") ∧
    ("failed" == "FAILED") = false ∧
    isPollStop "failed" = false ∧
    isPollStop "FAILED" = true := by
  refine ⟨by decide, by decide, by decide, by decide, by decide⟩

/-- Claim C7 (code bug evaluation): a Status Store write failure is
swallowed inside `update_job_status`, but a `browser.close()` failure in
the `finally` block escapes `scrape_page` (after the terminal write), so
the Executor boundary does see an exception. -/
theorem claim_C7_cleanup_exception_escapes :
    (scrape_page envCloseFail payloadX).raised =
      some (.other "connection closed while reading from the driver") ∧
    (scrape_page envCloseFail payloadX).ret = none ∧
    (scrape_page envCloseFail payloadX).statusTrace =
      ["PENDING", "RUNNING", "SUCCESS"] ∧
    (update_job_status true "2024-01-01T00:00:00" "job-1" "SUCCESS" none none
      (some (.other "ProvisionedThroughputExceededException"))).2 = none := by
  refine ⟨by decide, by decide, by decide, by decide⟩

/-- Claim C8: in every write the Executor issues, a `SUCCESS` record
never carries an error message, and a terminal-failure record (literal
`"failed"`, cf. C1) never carries any of the result-payload fields
`pageTitle` and `contentLength`. -/
theorem claim_C8_mutual_exclusion (env : Env) (p : Payload)
    (h : env.tableConfigured = true) :
    ∀ it ∈ (scrape_page env p).writes,
      (it.status = "SUCCESS" → it.errorMessage = none) ∧
      (it.status = "failed" → it.pageTitle = none ∧ it.contentLength = none) := by
  intro it hit
  rw [writes_spec env p h] at hit
  have hterm : ∀ hcl : it = updItem (env.clock 3) (jobIdOf env p)
      (tryBody env).finalStatus (some (finalData env p))
      ((tryBody env).caught.map errorInfo),
      (it.status = "SUCCESS" → it.errorMessage = none) ∧
      (it.status = "failed" → it.pageTitle = none ∧ it.contentLength = none) := by
    intro hcl
    subst hcl
    rw [updItem_some_truthy _ _ _ _ _ (finalData_truthy env p)]
    rcases (tryBody_spec env).1 with ⟨_, hfs, hres⟩ | ⟨hc, hfs, _⟩
    · constructor
      · intro hS
        have hS2 : (tryBody env).finalStatus = "SUCCESS" := hS
        rw [hfs] at hS2
        exact absurd hS2 (by decide)
      · intro _
        have hft := finalData_results env p
        rw [hres] at hft
        constructor
        · show (finalData env p).pageTitle = none
          rw [hft.1]
          rfl
        · show (finalData env p).contentLength = none
          rw [hft.2]
          rfl
    · constructor
      · intro _
        show (if truthyStr ((tryBody env).caught.map errorInfo) then
            (tryBody env).caught.map errorInfo else none) = none
        rw [hc]
        rfl
      · intro hF
        have hF2 : (tryBody env).finalStatus = "failed" := hF
        rw [hfs] at hF2
        exact absurd hF2 (by decide)
  cases hs : (tryBody env).sessionId with
  | none =>
      rw [hs] at hit
      simp at hit
      rcases hit with h1 | h1
      · subst h1
        constructor
        · intro hS
          rw [updItem_status] at hS
          exact absurd hS (by decide)
        · intro hF
          rw [updItem_status] at hF
          exact absurd hF (by decide)
      · exact hterm h1
  | some sid =>
      rw [hs] at hit
      simp at hit
      rcases hit with h1 | h1 | h1
      · subst h1
        constructor
        · intro hS
          rw [updItem_status] at hS
          exact absurd hS (by decide)
        · intro hF
          rw [updItem_status] at hF
          exact absurd hF (by decide)
      · subst h1
        constructor
        · intro hS
          rw [updItem_status] at hS
          exact absurd hS (by decide)
        · intro hF
          rw [updItem_status] at hF
          exact absurd hF (by decide)
      · exact hterm h1

/-- Witness for C8: the healthy run's terminal `SUCCESS` record carries no
error message. -/
theorem claim_C8_witness :
    itemW ∈ (scrape_page envOk payloadX).writes ∧ itemW.errorMessage = none := by
  have hmem : itemW ∈ (scrape_page envOk payloadX).writes := by decide
  exact ⟨hmem, (claim_C8_mutual_exclusion envOk payloadX rfl itemW hmem).1 rfl⟩

/-- Claim C5: the getter returns 200 with the encoded record exactly when
a record was found, 404 exactly when no record exists, and 500 exactly
when the store access (or anything else inside the handler) failed; the
three outcomes are mutually distinct. -/
theorem claim_C5_status_trichotomy (toF : Dec → Rat) (o : GetOutcome) :
    ((getter_lambda_handler toF o).statusCode = 200 ↔ ∃ it, o = .found it) ∧
    ((getter_lambda_handler toF o).statusCode = 404 ↔ o = .missing) ∧
    ((getter_lambda_handler toF o).statusCode = 500 ↔
      (∃ m, o = .clientError m) ∨ (∃ m, o = .unexpected m)) ∧
    (∀ it, o = .found it →
      (getter_lambda_handler toF o).body = dumpsItem toF it) ∧
    (o = .missing →
      (getter_lambda_handler toF o).body = [("error", .str "Job not found")]) := by
  cases o <;> simp [getter_lambda_handler]

/-- Witness for C5: a missing record yields 404. -/
theorem claim_C5_witness :
    (getter_lambda_handler (fun _ => 0) GetOutcome.missing).statusCode = 404 :=
  (claim_C5_status_trichotomy (fun _ => 0) GetOutcome.missing).2.1.mpr rfl

/-- A decimal made from a Python int is integral. -/
theorem dec_ofNat_integral (n : Nat) : (Dec.ofNat n).isIntegral = true := by
  simp [Dec.ofNat, Dec.isIntegral]

/-- `DecimalEncoder` is exact on integral decimals: the emitted JSON
integer denotes the decimal's value. -/
theorem encodeDecimal_integral_exact (toF : Dec → Rat) (d : Dec)
    (hd : d.isIntegral = true) : (encodeDecimal toF d).toRat = d.toRat := by
  unfold encodeDecimal
  rw [if_pos hd]
  unfold JNum.toRat Dec.toInt Dec.toRat
  unfold Dec.isIntegral at hd
  have hdvd : ((10 : Int) ^ d.scale) ∣ d.mant :=
    Int.dvd_of_emod_eq_zero (by simpa using hd)
  obtain ⟨k, hk⟩ := hdvd
  rw [hk]
  have h10 : ((10 : Int) ^ d.scale) ≠ 0 := by positivity
  have h10r : ((10 : Rat) ^ d.scale) ≠ 0 := by positivity
  rw [Int.mul_tdiv_cancel_left _ h10]
  push_cast
  rw [mul_comm, mul_div_assoc, div_self h10r, mul_one]

/-- Claim C9: every numeric field value the Executor stores in a Job
Record (only `contentLength`, a Python int) is an integral decimal, and
serializing it through the getter's `DecimalEncoder` and reading the JSON
number back yields exactly the same numeric value, for any float
conversion the encoder might otherwise use. -/
theorem claim_C9_numeric_roundtrip (toF : Dec → Rat) (env : Env) (p : Payload) :
    ∀ it ∈ (scrape_page env p).writes, ∀ d ∈ it.numericAttrs,
      d.isIntegral = true ∧ (encodeDecimal toF d).toRat = d.toRat := by
  intro it _ d hd
  unfold Item.numericAttrs at hd
  rcases hcl : it.contentLength with _ | n <;> rw [hcl] at hd
  · simp at hd
  · simp at hd
    subst hd
    exact ⟨dec_ofNat_integral n,
      encodeDecimal_integral_exact toF _ (dec_ofNat_integral n)⟩

/-- Witness for C9: the healthy run's `contentLength` 12345 round-trips
exactly. -/
theorem claim_C9_witness :
    itemW ∈ (scrape_page envOk payloadX).writes ∧
    Dec.ofNat 12345 ∈ itemW.numericAttrs ∧
    (encodeDecimal (fun _ => 0) (Dec.ofNat 12345)).toRat = (Dec.ofNat 12345).toRat := by
  have hmem : itemW ∈ (scrape_page envOk payloadX).writes := by decide
  have hd : Dec.ofNat 12345 ∈ itemW.numericAttrs := by decide
  exact ⟨hmem, hd,
    (claim_C9_numeric_roundtrip (fun _ => 0) envOk payloadX itemW hmem _ hd).2⟩

/-- Claim C10: evaluating the scraper module's `def` headers fails with a
`NameError` on `Dict` (referenced by line 54's annotations while only
`Optional` is imported from `typing`), so the module never loads and no
handler in it can run. -/
theorem claim_C10_import_error :
    loadScraperModule = .error "NameError: name Dict is not defined" ∧
    scraperTypingImports = ["Optional"] ∧
    scraperAnnotationScope.contains "Dict" = false ∧
    scraperAnnotationScope.contains "Any" = false ∧
    exceptOk loadScraperModule = false := by
  refine ⟨by decide, by decide, by decide, by decide, by decide⟩

/-- A stopping attempt delivers its record and that record's status is in
the stop list. -/
theorem stopsAt_some (resp : Nat → Option PollRecord) (i : Nat) (r : PollRecord)
    (h : stopsAt resp i = some r) :
    resp i = some r ∧ isPollStop r.statusOrUnknown = true := by
  unfold stopsAt at h
  cases hr : resp i <;> rw [hr] at h
  · exact absurd h (by simp)
  · rename_i r0
    dsimp only at h
    by_cases ht : isPollStop r0.statusOrUnknown = true
    · rw [if_pos ht] at h
      have hh := Option.some.inj h
      subst hh
      exact ⟨rfl, ht⟩
    · rw [if_neg ht] at h
      exact absurd h (by simp)

/-- Complete case analysis of the polling loop: either some attempt within
the remaining budget is the first stopping one and the loop returns its
record and index, or no attempt stops and the loop exhausts the budget. -/
theorem pollLoop_cases (resp : Nat → Option PollRecord) :
    ∀ fuel attempts,
      (∃ r a, pollLoop resp attempts fuel = .finalResult r a ∧
        attempts < a ∧ a ≤ attempts + fuel ∧ stopsAt resp a = some r ∧
        ∀ j, attempts < j → j < a → stopsAt resp j = none) ∨
      (pollLoop resp attempts fuel = .budgetExhausted (attempts + fuel) ∧
        ∀ j, attempts < j → j ≤ attempts + fuel → stopsAt resp j = none) := by
  intro fuel
  induction fuel with
  | zero =>
      intro attempts
      right
      refine ⟨rfl, ?_⟩
      intro j h1 h2
      omega
  | succ fuel ih =>
      intro attempts
      cases hr : resp (attempts + 1) with
      | none =>
          have hstop : stopsAt resp (attempts + 1) = none := by
            unfold stopsAt
            rw [hr]
          have hstep : pollLoop resp attempts (fuel + 1) =
              pollLoop resp (attempts + 1) fuel := by
            simp only [pollLoop, hr]
          rcases ih (attempts + 1) with ⟨r, a, h1, h2, h3, h4, h5⟩ | ⟨h1, h2⟩
          · left
            refine ⟨r, a, by rw [hstep]; exact h1, by omega, by omega, h4, ?_⟩
            intro j hj1 hj2
            by_cases hj : j = attempts + 1
            · rw [hj]
              exact hstop
            · exact h5 j (by omega) hj2
          · right
            constructor
            · rw [hstep, h1]
              congr 1
              omega
            · intro j hj1 hj2
              by_cases hj : j = attempts + 1
              · rw [hj]
                exact hstop
              · exact h2 j (by omega) (by omega)
      | some r0 =>
          by_cases ht : isPollStop r0.statusOrUnknown = true
          · left
            have hstep : pollLoop resp attempts (fuel + 1) =
                .finalResult r0 (attempts + 1) := by
              simp only [pollLoop, hr, ht, if_true]
            refine ⟨r0, attempts + 1, hstep, by omega, by omega, ?_, ?_⟩
            · unfold stopsAt
              rw [hr]
              dsimp only
              rw [if_pos ht]
            · intro j hj1 hj2
              omega
          · have hstop : stopsAt resp (attempts + 1) = none := by
              unfold stopsAt
              rw [hr]
              dsimp only
              rw [if_neg ht]
            have hstep : pollLoop resp attempts (fuel + 1) =
                pollLoop resp (attempts + 1) fuel := by
              simp only [pollLoop, hr]
              rw [if_neg ht]
            rcases ih (attempts + 1) with ⟨r, a, h1, h2, h3, h4, h5⟩ | ⟨h1, h2⟩
            · left
              refine ⟨r, a, by rw [hstep]; exact h1, by omega, by omega, h4, ?_⟩
              intro j hj1 hj2
              by_cases hj : j = attempts + 1
              · rw [hj]
                exact hstop
              · exact h5 j (by omega) hj2
            · right
              constructor
              · rw [hstep, h1]
                congr 1
                omega
              · intro j hj1 hj2
                by_cases hj : j = attempts + 1
                · rw [hj]
                  exact hstop
                · exact h2 j (by omega) (by omega)

/-- Claim C6: the polling loop performs at most `MAX_POLL_ATTEMPTS = 50`
queries at the configured `POLL_INTERVAL_SECONDS = 2`; it stops at the
first response whose status is `SUCCESS`, `FAILED`, or `ERROR_CHECKING`;
a 404 answer maps to "keep polling" rather than failure; and when no
attempt in the budget stops it, it reports the distinct budget-exhausted
outcome after exactly 50 queries. -/
theorem claim_C6_polling_contract (http : Nat → HttpResult) :
    MAX_POLL_ATTEMPTS = 50 ∧
    POLL_INTERVAL_SECONDS = 2 ∧
    (runPolling http).attempts ≤ 50 ∧
    (∀ m, get_job_status (.httpError 404 m) = none) ∧
    (∀ r a, runPolling http = .finalResult r a →
      1 ≤ a ∧ a ≤ 50 ∧
      stopsAt (fun i => get_job_status (http i)) a = some r ∧
      isPollStop r.statusOrUnknown = true ∧
      ∀ j, 1 ≤ j → j < a → stopsAt (fun i => get_job_status (http i)) j = none) ∧
    ((∀ j, 1 ≤ j → j ≤ 50 → stopsAt (fun i => get_job_status (http i)) j = none) →
      runPolling http = .budgetExhausted 50) := by
  have hc := pollLoop_cases (fun i => get_job_status (http i)) MAX_POLL_ATTEMPTS 0
  refine ⟨rfl, rfl, ?_, ?_, ?_, ?_⟩
  · unfold runPolling
    rcases hc with ⟨r, a, h1, _, h3, _, _⟩ | ⟨h1, _⟩
    · rw [h1]
      show a ≤ 50
      have h3x : a ≤ 0 + 50 := h3
      omega
    · rw [h1]
      show 0 + MAX_POLL_ATTEMPTS ≤ 50
      rfl
  · intro m
    rfl
  · intro r a hra
    unfold runPolling at hra
    rcases hc with ⟨r0, a0, h1, h2, h3, h4, h5⟩ | ⟨h1, _⟩
    · rw [h1] at hra
      injection hra with hra1 hra2
      subst hra1
      subst hra2
      have h3x : a0 ≤ 0 + 50 := h3
      refine ⟨h2, by omega, h4, (stopsAt_some _ a0 r0 h4).2, ?_⟩
      intro j hj1 hj2
      exact h5 j hj1 hj2
    · rw [h1] at hra
      exact absurd hra (by simp)
  · intro hnone
    unfold runPolling
    rcases hc with ⟨r0, a0, h1, h2, h3, h4, _⟩ | ⟨h1, _⟩
    · have h3x : a0 ≤ 0 + 50 := h3
      have := hnone a0 h2 (by omega)
      rw [this] at h4
      exact absurd h4 (by simp)
    · rw [h1]
      rfl

/-- Witness for C6: with a first response already `SUCCESS`, the loop
stops after one query. -/
theorem claim_C6_witness :
    runPolling pollHttpSuccess =
      PollOutcome.finalResult { status := some "SUCCESS" } 1 ∧
    stopsAt (fun i => get_job_status (pollHttpSuccess i)) 1 =
      some { status := some "SUCCESS" } ∧
    get_job_status (HttpResult.httpError 404 "not found") = none := by
  have hrun : runPolling pollHttpSuccess =
      PollOutcome.finalResult { status := some "SUCCESS" } 1 := by decide
  have h := (claim_C6_polling_contract pollHttpSuccess).2.2.2.2.1
    { status := some "SUCCESS" } 1 hrun
  exact ⟨hrun, h.2.2.1,
    (claim_C6_polling_contract pollHttpSuccess).2.2.2.1 "not found"⟩

end BrowserbaseLambda
